import Mathlib

/-!
Verification development for the clinical-doc-automation repository.

Shallow embedding of the two logical cores:
  * `modules/dvp_generator.py` — validation-rule generation
    (`DVPGenerator`, `CRFField`, `ValidationRule`, the per-category
    generator methods and the shared id counter);
  * `automation_workflow.py` — workflow orchestration
    (`GenerationTask`, `AutomationReport`, `ClinicalDocAutomation`,
    `BatchProcessor`, the CLI `main`).

Out-of-scope collaborators (PDF parsing, the generative-AI call, python-docx
document assembly, logging, the file system) are modelled as an explicit
`World` of step outcomes: a step's try-block either completes (producing the
standard output path) or raises (with a message).  Wall-clock timestamps are
modelled by a monotone `clock : Nat` threaded through the state; each
`datetime.now()` call reads and bumps it.
-/

namespace ClinicalDoc

/-! ### Decimal rendering

Python renders the id counter with `f"{prefix}-{self.rule_counter:04d}"` and
numeric bounds with plain `f"{value}"`.  We model decimal rendering with a
structural (fuel-based) digit extractor so that proofs and witnesses reduce
in the kernel. -/

/-- Map a single decimal digit to its character; non-digits map to `'*'`
(never reached: every produced digit is `< 10`). -/
def digitToChar : Nat → Char
  | 0 => '0'
  | 1 => '1'
  | 2 => '2'
  | 3 => '3'
  | 4 => '4'
  | 5 => '5'
  | 6 => '6'
  | 7 => '7'
  | 8 => '8'
  | 9 => '9'
  | _ => '*'

/-- Inverse of `digitToChar` on `'0'`–`'9'`. -/
def charToDigit (c : Char) : Nat :=
  if c = '0' then 0 else if c = '1' then 1 else if c = '2' then 2
  else if c = '3' then 3 else if c = '4' then 4 else if c = '5' then 5
  else if c = '6' then 6 else if c = '7' then 7 else if c = '8' then 8
  else if c = '9' then 9 else 0

/-- Little-endian decimal digits of `n`, with explicit fuel (`fuel ≥ n`
suffices). -/
def toDecimalAux : Nat → Nat → List Nat
  | 0, _ => []
  | fuel + 1, n => if n = 0 then [] else n % 10 :: toDecimalAux fuel (n / 10)

/-- Little-endian decimal digits of `n` (`[]` for `0`). -/
def decDigits (n : Nat) : List Nat := toDecimalAux n n

/-- Big-endian character rendering of `n` (`[]` for `0`). -/
def decChars (n : Nat) : List Char := (decDigits n).reverse.map digitToChar

/-- Python `str(n)` for a natural number. -/
def decRepr (n : Nat) : String :=
  if n = 0 then "0" else String.mk (decChars n)

/-- Python `str(i)` for an integer (bounds are written with plain
`f"{value}"`). -/
def intRepr : Int → String
  | Int.ofNat n => decRepr n
  | Int.negSucc n => "-" ++ decRepr (n + 1)

/-- Python `f"{n:04d}"`: the decimal digits left-padded with `'0'` to a
minimum width of 4. -/
def pad4 (n : Nat) : String :=
  String.mk (List.replicate (4 - (decChars n).length) '0' ++ decChars n)

/-- Value of a little-endian digit list. -/
def ofDigsLE : List Nat → Nat
  | [] => 0
  | d :: ds => d + 10 * ofDigsLE ds

/-- Drop leading `'0'` characters. -/
def stripZeros : List Char → List Char
  | '0' :: cs => stripZeros cs
  | cs => cs

theorem ofDigsLE_toDecimalAux (fuel n : Nat) (h : n ≤ fuel) :
    ofDigsLE (toDecimalAux fuel n) = n := by
  induction fuel generalizing n with
  | zero =>
    have hz : n = 0 := Nat.le_zero.mp h
    subst hz ; rfl
  | succ fuel ih =>
    by_cases h0 : n = 0
    · subst h0 ; rfl
    · have hdiv : n / 10 ≤ fuel := by
        have h1 : n / 10 < n := Nat.div_lt_self (Nat.pos_of_ne_zero h0) (by omega)
        omega
      simp only [toDecimalAux, h0, if_false, ofDigsLE, ih _ hdiv]
      omega

theorem ofDigsLE_decDigits (n : Nat) : ofDigsLE (decDigits n) = n :=
  ofDigsLE_toDecimalAux n n le_rfl

theorem toDecimalAux_mem_lt (fuel n d : Nat) (h : d ∈ toDecimalAux fuel n) :
    d < 10 := by
  induction fuel generalizing n with
  | zero => simp [toDecimalAux] at h
  | succ fuel ih =>
    by_cases h0 : n = 0
    · subst h0 ; simp [toDecimalAux] at h
    · simp only [toDecimalAux, h0, if_false, List.mem_cons] at h
      rcases h with h | h
      · omega
      · exact ih _ h

theorem decDigits_mem_lt {n d : Nat} (h : d ∈ decDigits n) : d < 10 :=
  toDecimalAux_mem_lt n n d h

/-- The leading (most significant) digit of a positive number is non-zero:
the reversed digit list starts with a non-zero digit. -/
theorem toDecimalAux_zero (fuel : Nat) : toDecimalAux fuel 0 = [] := by
  cases fuel <;> rfl

theorem toDecimalAux_reverse_head (fuel n : Nat) (hn : 0 < n) (h : n ≤ fuel) :
    ∃ d ds, (toDecimalAux fuel n).reverse = d :: ds ∧ d ≠ 0 ∧ d < 10 := by
  induction fuel generalizing n with
  | zero => omega
  | succ fuel ih =>
    have h0 : n ≠ 0 := Nat.pos_iff_ne_zero.mp hn
    simp only [toDecimalAux, h0, if_false, List.reverse_cons]
    by_cases hq : n / 10 = 0
    · have hlt : n < 10 := by omega
      rw [hq, toDecimalAux_zero]
      refine ⟨n % 10, [], rfl, ?_, Nat.mod_lt n (by omega)⟩
      rw [Nat.mod_eq_of_lt hlt]
      omega
    · have hdiv : n / 10 ≤ fuel := by
        have h1 : n / 10 < n := Nat.div_lt_self hn (by omega)
        omega
      obtain ⟨d, ds, heq, hd0, hd10⟩ := ih (n / 10) (Nat.pos_of_ne_zero hq) hdiv
      exact ⟨d, ds ++ [n % 10], by rw [heq] ; rfl, hd0, hd10⟩

theorem digitToChar_ne_zero_char : ∀ d < 10, d ≠ 0 → digitToChar d ≠ '0' := by
  decide

theorem decChars_head (n : Nat) (hn : 0 < n) :
    ∃ c cs, decChars n = c :: cs ∧ c ≠ '0' := by
  obtain ⟨d, ds, heq, hd0, hd10⟩ := toDecimalAux_reverse_head n n hn le_rfl
  refine ⟨digitToChar d, ds.map digitToChar, ?_, ?_⟩
  · simp [decChars, decDigits, heq]
  · exact digitToChar_ne_zero_char d hd10 hd0

theorem charToDigit_digitToChar_all : ∀ d < 10, charToDigit (digitToChar d) = d := by
  decide

theorem charToDigit_digitToChar {d : Nat} (h : d < 10) :
    charToDigit (digitToChar d) = d :=
  charToDigit_digitToChar_all d h

theorem stripZeros_replicate (m : Nat) (cs : List Char) :
    stripZeros (List.replicate m '0' ++ cs) = stripZeros cs := by
  induction m with
  | zero => rfl
  | succ m ih => simpa [List.replicate_succ, stripZeros] using ih

theorem stripZeros_of_head_ne {c : Char} (cs : List Char) (h : c ≠ '0') :
    stripZeros (c :: cs) = c :: cs := by
  unfold stripZeros
  split
  · next heq => rw [List.cons.injEq] at heq ; exact absurd heq.1 h
  · rfl

/-- Recover `n` from the characters of `pad4 n`: strip the padding zeros and
read the decimal digits back.  Total inverse of `pad4` on positive numbers. -/
def charsToNat (cs : List Char) : Nat :=
  ofDigsLE (((stripZeros cs).map charToDigit).reverse)

theorem charsToNat_pad4 (n : Nat) (hn : 0 < n) :
    charsToNat (pad4 n).data = n := by
  obtain ⟨c, cs, heq, hc⟩ := decChars_head n hn
  have hstrip : stripZeros (pad4 n).data = decChars n := by
    show stripZeros (List.replicate (4 - (decChars n).length) '0' ++ decChars n)
        = decChars n
    rw [stripZeros_replicate, heq, stripZeros_of_head_ne _ hc]
  unfold charsToNat
  rw [hstrip]
  show ofDigsLE ((((decDigits n).reverse.map digitToChar).map charToDigit).reverse) = n
  rw [List.map_map]
  have hmaps : (decDigits n).reverse.map (charToDigit ∘ digitToChar)
      = (decDigits n).reverse.map id := by
    apply List.map_congr_left
    intro d hd
    exact charToDigit_digitToChar (decDigits_mem_lt (List.mem_reverse.mp hd))
  rw [hmaps, List.map_id, List.reverse_reverse, ofDigsLE_decDigits]

/-! ### Substring search

`dvp_generator.py` uses Python's `in` operator on strings and `re.search`
with patterns of the shape `lit₁.*lit₂.*…*litₖ` (plain literals joined by
`.*`).  Such a pattern matches a string iff the literals occur in order as
substrings; the earliest-occurrence greedy scan below is complete for this
pattern class. -/

/-- The suffix of `s` strictly after the first occurrence of `p`, or `none`
when `p` does not occur in `s`.  (`p = []` matches at position 0.) -/
def findTail (p : List Char) : List Char → Option (List Char)
  | [] => if p = [] then some [] else none
  | c :: rest =>
    if p.isPrefixOf (c :: rest) then some ((c :: rest).drop p.length)
    else findTail p rest

/-- Python `p in s` on character lists. -/
def containsSub (s p : List Char) : Bool := (findTail p s).isSome

/-- `re.search` of `lit₁.*lit₂.*…*litₖ`: the literals occur in order. -/
def containsInOrder : List Char → List (List Char) → Bool
  | _, [] => true
  | s, p :: ps =>
    match findTail p s with
    | some rest => containsInOrder rest ps
    | none => false

/-- Python `field.field_name.lower()` (ASCII-relevant lowering). -/
def lowerChars (s : String) : List Char := s.data.map Char.toLower

/-! ### DVP generator data model (`modules/dvp_generator.py`)

`ValidationRule.details` (a free-form `Dict[str, Any]`) is not modelled: no
claim inspects it.  `ValidationRule.__post_init__` raises `ValueError` on an
empty id, description, or query text; the generator methods always build
non-empty strings, and for `add_custom_rule` (the only path where caller
data reaches the constructor) the check is modelled explicitly in
`addCustomRule`. -/

/-- `Severity` enum. -/
inductive Severity where
  | critical
  | major
  | minor
deriving DecidableEq, Repr

/-- `Severity.value` strings. -/
def Severity.value : Severity → String
  | .critical => "Critical"
  | .major => "Major"
  | .minor => "Minor"

/-- `ValidationType` enum. -/
inductive ValidationType where
  | rangeCheck
  | requiredField
  | logicalCheck
  | crossForm
  | dateConsistency
  | protocolDeviation
  | custom
deriving DecidableEq, Repr

/-- `ValidationType.value` strings. -/
def ValidationType.value : ValidationType → String
  | .rangeCheck => "Range Check"
  | .requiredField => "Required Field"
  | .logicalCheck => "Logical Check"
  | .crossForm => "Cross-Form Validation"
  | .dateConsistency => "Date Consistency"
  | .protocolDeviation => "Protocol Deviation"
  | .custom => "Custom"

/-- `ValidationRule` dataclass (minus the unmodelled `details` map). -/
structure ValidationRule where
  rule_id : String
  description : String
  severity : Severity
  query_text : String
  validation_type : ValidationType
  form_name : Option String := none
  field_name : Option String := none
deriving DecidableEq, Repr

/-- `ProtocolInfo` dataclass of `dvp_generator.py`.  `__post_init__` fills
`date` from `datetime.now()` when empty; the field is kept as supplied. -/
structure ProtocolInfo where
  protocol_number : String
  protocol_title : String
  sponsor : String
  indication : String
  phase : String
  version : String := "1.0"
  date : String := ""
deriving DecidableEq, Repr

/-- `CRFField` dataclass.  Numeric bounds are integers in every use in the
repository; Python's `Optional[float]` is modelled as `Option Int`. -/
structure CRFField where
  field_name : String
  field_label : String
  form_name : String
  data_type : String
  required : Bool := false
  min_value : Option Int := none
  max_value : Option Int := none
  valid_values : Option (List String) := none
  date_format : Option String := none
  units : Option String := none
deriving DecidableEq, Repr

/-- Mutable state of a `DVPGenerator` instance. -/
structure DVPGenerator where
  protocol_info : ProtocolInfo
  validation_rules : List ValidationRule := []
  rule_counter : Nat := 0
  crf_fields : List CRFField := []
deriving DecidableEq, Repr

/-- `DVPGenerator.__init__`. -/
def DVPGenerator.init (p : ProtocolInfo) : DVPGenerator :=
  { protocol_info := p }

/-- `DVPGenerator.add_crf_fields`: `self.crf_fields.extend(fields)`. -/
def addCrfFields (g : DVPGenerator) (fields : List CRFField) : DVPGenerator :=
  { g with crf_fields := g.crf_fields ++ fields }

/-- The fixed category→prefix table of `_generate_rule_id`.  The Python
`dict.get(…, "VAL")` default is unreachable: the table covers every
`ValidationType` member. -/
def prefixOf : ValidationType → String
  | .rangeCheck => "RNG"
  | .requiredField => "REQ"
  | .logicalCheck => "LOG"
  | .crossForm => "CRS"
  | .dateConsistency => "DAT"
  | .protocolDeviation => "PRO"
  | .custom => "CUS"

/-- The id string produced by `_generate_rule_id` when the incremented
counter is `c`: `f"{prefix}-{c:04d}"`. -/
def mkRuleId (vt : ValidationType) (c : Nat) : String :=
  prefixOf vt ++ "-" ++ pad4 c

/-- The `range_desc` string of `generate_range_checks`.  The final arm
mirrors Python's `else` branch, which renders `None` when both bounds are
absent; the caller's guard makes it unreachable. -/
def rangeDesc (f : CRFField) : String :=
  match f.min_value, f.max_value with
  | some mn, some mx => "between " ++ intRepr mn ++ " and " ++ intRepr mx
  | some mn, none => "greater than or equal to " ++ intRepr mn
  | none, some mx => "less than or equal to " ++ intRepr mx
  | none, none => "less than or equal to None"

/-- Loop body of `generate_range_checks`, threading the shared counter. -/
def rangeAux : List CRFField → Nat → List ValidationRule × Nat
  | [], c => ([], c)
  | f :: fs, c =>
    if f.data_type = "numeric" ∧ (f.min_value ≠ none ∨ f.max_value ≠ none) then
      let rd := rangeDesc f
      let description :=
        "Check that " ++ f.field_label ++ " (" ++ f.field_name ++ ") is " ++ rd
          ++ (match f.units with | some u => " " ++ u | none => "")
      let query_text :=
        "Please verify " ++ f.field_label
          ++ ". The value is outside the expected range (" ++ rd
          ++ (match f.units with | some u => " " ++ u | none => "") ++ ")."
      let rule : ValidationRule :=
        { rule_id := mkRuleId .rangeCheck (c + 1)
          description := description
          severity := .major
          query_text := query_text
          validation_type := .rangeCheck
          form_name := some f.form_name
          field_name := some f.field_name }
      let res := rangeAux fs (c + 1)
      (rule :: res.1, res.2)
    else rangeAux fs c

/-- `generate_range_checks`: reads the field catalogue, bumps only the
counter, and returns (without storing) the produced rules. -/
def generateRangeChecks (g : DVPGenerator) : List ValidationRule × DVPGenerator :=
  let res := rangeAux g.crf_fields g.rule_counter
  (res.1, { g with rule_counter := res.2 })

/-- Loop body of `generate_required_field_checks`. -/
def requiredAux : List CRFField → Nat → List ValidationRule × Nat
  | [], c => ([], c)
  | f :: fs, c =>
    if f.required then
      let rule : ValidationRule :=
        { rule_id := mkRuleId .requiredField (c + 1)
          description :=
            "Check that " ++ f.field_label ++ " (" ++ f.field_name ++ ") in "
              ++ f.form_name ++ " is not missing"
          severity := .critical
          query_text := "Please provide the missing value for " ++ f.field_label ++ "."
          validation_type := .requiredField
          form_name := some f.form_name
          field_name := some f.field_name }
      let res := requiredAux fs (c + 1)
      (rule :: res.1, res.2)
    else requiredAux fs c

/-- `generate_required_field_checks`. -/
def generateRequiredFieldChecks (g : DVPGenerator) : List ValidationRule × DVPGenerator :=
  let res := requiredAux g.crf_fields g.rule_counter
  (res.1, { g with rule_counter := res.2 })

/-- One entry of the `date_checks` table of
`generate_date_consistency_checks`; `pattern` holds the literal parts of the
`lit₁.*lit₂.*…` regex. -/
structure DateCheck where
  pattern : List String
  reference : String
  check : String
  description : String

/-- The fixed `date_checks` table. -/
def dateChecks : List DateCheck :=
  [ { pattern := ["inform", "consent", "date"]
      reference := "study_start_date"
      check := "on_or_before"
      description := "Informed consent date should be on or before the study start date" },
    { pattern := ["visit", "date"]
      reference := "inform_consent_date"
      check := "on_or_after"
      description := "Visit date should be on or after informed consent date" },
    { pattern := ["ae", "start", "date"]
      reference := "ae_end_date"
      check := "on_or_before"
      description := "Adverse event start date should be on or before end date" } ]

/-- Inner loop of `generate_date_consistency_checks`: match one date field
against each table entry; every match yields a separate rule. -/
def dateInner (f : CRFField) : List DateCheck → Nat → List ValidationRule × Nat
  | [], c => ([], c)
  | ck :: cks, c =>
    if containsInOrder (lowerChars f.field_name) (ck.pattern.map String.data) then
      let rule : ValidationRule :=
        { rule_id := mkRuleId .dateConsistency (c + 1)
          description := ck.description
          severity := .major
          query_text :=
            "Please verify the date for " ++ f.field_label ++ ". " ++ ck.description ++ "."
          validation_type := .dateConsistency
          form_name := some f.form_name
          field_name := some f.field_name }
      let res := dateInner f cks (c + 1)
      (rule :: res.1, res.2)
    else dateInner f cks c

/-- Outer loop of `generate_date_consistency_checks` over the date fields
(Python prefilters `data_type == 'date'`; filtering inline is the same
traversal). -/
def dateAux : List CRFField → Nat → List ValidationRule × Nat
  | [], c => ([], c)
  | f :: fs, c =>
    if f.data_type = "date" then
      let res₁ := dateInner f dateChecks c
      let res₂ := dateAux fs res₁.2
      (res₁.1 ++ res₂.1, res₂.2)
    else dateAux fs c

/-- `generate_date_consistency_checks`. -/
def generateDateConsistencyChecks (g : DVPGenerator) : List ValidationRule × DVPGenerator :=
  let res := dateAux g.crf_fields g.rule_counter
  (res.1, { g with rule_counter := res.2 })

/-- Loop body of `generate_logical_checks`.  The Python guard
`field.valid_values and 'Yes' in field.valid_values` is truthy exactly when
the list is present and contains `"Yes"`. -/
def logicalAux : List CRFField → Nat → List ValidationRule × Nat
  | [], c => ([], c)
  | f :: fs, c =>
    if (containsSub (lowerChars f.field_name) "indicate".data
          || containsSub (lowerChars f.field_name) "occurred".data)
        && (match f.valid_values with
            | some vs => vs.contains "Yes"
            | none => false) then
      let rule : ValidationRule :=
        { rule_id := mkRuleId .logicalCheck (c + 1)
          description :=
            "If " ++ f.field_label ++ " is 'Yes', associated details must be provided"
          severity := .major
          query_text :=
            "Please provide details for " ++ f.field_label ++ " as it is marked as 'Yes'."
          validation_type := .logicalCheck
          form_name := some f.form_name
          field_name := some f.field_name }
      let res := logicalAux fs (c + 1)
      (rule :: res.1, res.2)
    else logicalAux fs c

/-- `generate_logical_checks`. -/
def generateLogicalChecks (g : DVPGenerator) : List ValidationRule × DVPGenerator :=
  let res := logicalAux g.crf_fields g.rule_counter
  (res.1, { g with rule_counter := res.2 })

/-- De-duplication keeping first occurrences.  Python builds the form list
with `set(...)`, whose iteration order is unspecified (string hashing is
randomized per process); no claim depends on this string, and we fix the
first-occurrence order. -/
def dedupFirstAux : List String → List String → List String
  | [], _ => []
  | x :: xs, seen =>
    if x ∈ seen then dedupFirstAux xs seen else x :: dedupFirstAux xs (x :: seen)

/-- `", ".join(set(...))` with first-occurrence order. -/
def joinForms (l : List String) : String :=
  String.intercalate ", " (dedupFirstAux l [])

/-- `generate_cross_form_validations`: one rule iff more than one field
whose lower-cased name contains both `"subject"` and `"id"`.  (The `forms`
grouping computed at the top of the Python method is dead code and is not
modelled.) -/
def generateCrossFormValidations (g : DVPGenerator) : List ValidationRule × DVPGenerator :=
  let subject_id_fields := g.crf_fields.filter fun f =>
    containsSub (lowerChars f.field_name) "subject".data
      && containsSub (lowerChars f.field_name) "id".data
  if subject_id_fields.length > 1 then
    let c := g.rule_counter + 1
    let form_names := joinForms (subject_id_fields.map (·.form_name))
    let rule : ValidationRule :=
      { rule_id := mkRuleId .crossForm c
        description :=
          "Check that Subject ID is consistent across all forms: " ++ form_names
        severity := .critical
        query_text :=
          "Please verify the Subject ID. It appears to be inconsistent across forms."
        validation_type := .crossForm }
    ([rule], { g with rule_counter := c })
  else ([], g)

/-- One entry of the hard-coded `deviation_checks` table. -/
structure DeviationCheck where
  description : String
  query : String
  severity : Severity

/-- The fixed `deviation_checks` table of `generate_protocol_deviation_checks`. -/
def deviationChecks : List DeviationCheck :=
  [ { description := "Check that inclusion criteria are met at screening"
      query := "Please verify that all inclusion criteria were met. A protocol deviation may have occurred."
      severity := .critical },
    { description := "Check that exclusion criteria are not violated"
      query := "Please verify that no exclusion criteria were violated. A protocol deviation may have occurred."
      severity := .critical },
    { description := "Check that visit windows are within protocol-specified ranges"
      query := "Please verify the visit date. It appears to be outside the protocol-specified window."
      severity := .major },
    { description := "Check that prohibited medications were not taken"
      query := "Please verify the concomitant medication. It may be prohibited per protocol."
      severity := .major } ]

/-- Loop of `generate_protocol_deviation_checks` over the fixed table. -/
def deviationAux : List DeviationCheck → Nat → List ValidationRule × Nat
  | [], c => ([], c)
  | ck :: cks, c =>
    let rule : ValidationRule :=
      { rule_id := mkRuleId .protocolDeviation (c + 1)
        description := ck.description
        severity := ck.severity
        query_text := ck.query
        validation_type := .protocolDeviation }
    let res := deviationAux cks (c + 1)
    (rule :: res.1, res.2)

/-- `generate_protocol_deviation_checks`: always emits the four fixed rules,
independent of the field catalogue. -/
def generateProtocolDeviationChecks (g : DVPGenerator) : List ValidationRule × DVPGenerator :=
  let res := deviationAux deviationChecks g.rule_counter
  (res.1, { g with rule_counter := res.2 })

/-- `generate_all_rules`: the six generators in fixed order; the
concatenation is appended to `self.validation_rules` and the new batch (not
the accumulated collection) is returned. -/
def generateAllRules (g : DVPGenerator) : List ValidationRule × DVPGenerator :=
  let p₁ := generateRequiredFieldChecks g
  let p₂ := generateRangeChecks p₁.2
  let p₃ := generateDateConsistencyChecks p₂.2
  let p₄ := generateLogicalChecks p₃.2
  let p₅ := generateCrossFormValidations p₄.2
  let p₆ := generateProtocolDeviationChecks p₅.2
  let all_rules := p₁.1 ++ p₂.1 ++ p₃.1 ++ p₄.1 ++ p₅.1 ++ p₆.1
  (all_rules, { p₆.2 with validation_rules := p₆.2.validation_rules ++ all_rules })

/-- `add_custom_rule`.  `ValidationRule.__post_init__` raises `ValueError`
on an empty description or query text (the generated id is never empty);
the id counter has already been bumped when that happens, and the rule is
not stored.  The raise is modelled by the `none` result. -/
def addCustomRule (g : DVPGenerator) (description query_text : String)
    (severity : Severity) (validation_type : ValidationType := .custom)
    (form_name : Option String := none) (field_name : Option String := none) :
    Option ValidationRule × DVPGenerator :=
  let c := g.rule_counter + 1
  let g' := { g with rule_counter := c }
  if description = "" ∨ query_text = "" then
    (none, g')
  else
    let rule : ValidationRule :=
      { rule_id := mkRuleId validation_type c
        description := description
        severity := severity
        query_text := query_text
        validation_type := validation_type
        form_name := form_name
        field_name := field_name }
    (some rule, { g' with validation_rules := g'.validation_rules ++ [rule] })

/-! ### Generator lifetimes

For the id-uniqueness invariant we quantify over arbitrary sequences of the
public operations of one `DVPGenerator` instance.  `applyOp` returns the
rules the operation *created* (for the per-category generator methods that
is the returned batch — they create ids without storing rules; `genAll` and
`addCustom` also append to the stored collection, which is therefore a
sub-sequence of the created rules).  An `add_custom_rule` call with an
empty description or query raises `ValueError` — after the id counter was
already bumped — and aborts the remainder of the lifetime; `runOps` models
this by halting. -/

/-- One public operation on a `DVPGenerator` instance. -/
inductive GenOp where
  | addFields (fs : List CRFField)
  | genRequired
  | genRange
  | genDate
  | genLogical
  | genCross
  | genDeviation
  | genAll
  | addCustom (description query_text : String) (severity : Severity)
      (validation_type : ValidationType) (form_name field_name : Option String)

/-- Apply one operation, returning the new state, the created rules, and
whether the operation completed without raising. -/
def applyOp (g : DVPGenerator) : GenOp → DVPGenerator × List ValidationRule × Bool
  | .addFields fs => (addCrfFields g fs, [], true)
  | .genRequired =>
    let p := generateRequiredFieldChecks g
    (p.2, p.1, true)
  | .genRange =>
    let p := generateRangeChecks g
    (p.2, p.1, true)
  | .genDate =>
    let p := generateDateConsistencyChecks g
    (p.2, p.1, true)
  | .genLogical =>
    let p := generateLogicalChecks g
    (p.2, p.1, true)
  | .genCross =>
    let p := generateCrossFormValidations g
    (p.2, p.1, true)
  | .genDeviation =>
    let p := generateProtocolDeviationChecks g
    (p.2, p.1, true)
  | .genAll =>
    let p := generateAllRules g
    (p.2, p.1, true)
  | .addCustom d q sv vt fo fi =>
    let p := addCustomRule g d q sv vt fo fi
    (p.2, p.1.toList, p.1.isSome)

/-- Run a lifetime: the final state and all rules created along the way, in
creation order; a raising operation ends the lifetime. -/
def runOps (g : DVPGenerator) : List GenOp → DVPGenerator × List ValidationRule
  | [] => (g, [])
  | op :: ops =>
    let p := applyOp g op
    if p.2.2 then
      let q := runOps p.1 ops
      (q.1, p.2.1 ++ q.2)
    else (p.1, p.2.1)

/-- Id specification for a run of rule creations: starting from counter
value `c`, each successive rule's id is its category prefix, a dash, and
the 4-padded value of the shared counter, which increments by exactly one
per rule and ends at `c'`. -/
def chained : Nat → List ValidationRule → Nat → Prop
  | c, [], c' => c' = c
  | c, r :: rs, c' => r.rule_id = mkRuleId r.validation_type (c + 1) ∧ chained (c + 1) rs c'

theorem chained_nil (c : Nat) : chained c [] c := rfl

theorem chained_append {c c₁ c₂ : Nat} {l₁ l₂ : List ValidationRule}
    (h₁ : chained c l₁ c₁) (h₂ : chained c₁ l₂ c₂) :
    chained c (l₁ ++ l₂) c₂ := by
  induction l₁ generalizing c with
  | nil => cases h₁ ; exact h₂
  | cons r rs ih => exact ⟨h₁.1, ih h₁.2⟩

theorem chained_counter {c c' : Nat} {l : List ValidationRule}
    (h : chained c l c') : c' = c + l.length := by
  induction l generalizing c with
  | nil => simpa [chained] using h
  | cons r rs ih =>
    have := ih h.2
    simp [List.length_cons]
    omega

/-- The numeric part of a rule id: every category prefix has 3 characters,
so the digits start after position 4. -/
def idIndex (s : String) : Nat := charsToNat (s.data.drop 4)

theorem idIndex_mkRuleId (vt : ValidationType) (k : Nat) (hk : 0 < k) :
    idIndex (mkRuleId vt k) = k := by
  cases vt <;>
    simpa [idIndex, mkRuleId, prefixOf, String.data_append] using charsToNat_pad4 k hk

theorem chained_bounds {c c' : Nat} {l : List ValidationRule}
    (h : chained c l c') :
    ∀ r ∈ l, c < idIndex r.rule_id ∧ idIndex r.rule_id ≤ c' := by
  induction l generalizing c with
  | nil => intro r hr ; cases hr
  | cons a l ih =>
    intro r hr
    have hcnt : c' = (c + 1) + l.length := by
      have := chained_counter h
      simp at this
      omega
    rcases List.mem_cons.mp hr with rfl | hr
    · rw [h.1, idIndex_mkRuleId _ _ (by omega)]
      omega
    · have := ih h.2 r hr
      omega

theorem chained_nodup {c c' : Nat} {l : List ValidationRule}
    (h : chained c l c') : (l.map (·.rule_id)).Nodup := by
  induction l generalizing c with
  | nil => simp
  | cons a l ih =>
    simp only [List.map_cons, List.nodup_cons]
    refine ⟨?_, ih h.2⟩
    intro hmem
    obtain ⟨r, hr, hid⟩ := List.mem_map.mp hmem
    have hb := (chained_bounds h.2 r hr).1
    rw [hid, h.1, idIndex_mkRuleId _ _ (by omega)] at hb
    omega

theorem requiredAux_chained (fs : List CRFField) (c : Nat) :
    chained c (requiredAux fs c).1 (requiredAux fs c).2 := by
  induction fs generalizing c with
  | nil => exact chained_nil c
  | cons f fs ih =>
    by_cases h : f.required
    · simp only [requiredAux, h, if_true]
      exact ⟨rfl, ih (c + 1)⟩
    · simp only [requiredAux, h, if_false]
      exact ih c

theorem rangeAux_chained (fs : List CRFField) (c : Nat) :
    chained c (rangeAux fs c).1 (rangeAux fs c).2 := by
  induction fs generalizing c with
  | nil => exact chained_nil c
  | cons f fs ih =>
    by_cases h : f.data_type = "numeric" ∧ (f.min_value ≠ none ∨ f.max_value ≠ none)
    · simp only [rangeAux, if_pos h]
      exact ⟨rfl, ih (c + 1)⟩
    · simp only [rangeAux, if_neg h]
      exact ih c

theorem dateInner_chained (f : CRFField) (cks : List DateCheck) (c : Nat) :
    chained c (dateInner f cks c).1 (dateInner f cks c).2 := by
  induction cks generalizing c with
  | nil => exact chained_nil c
  | cons ck cks ih =>
    by_cases h : containsInOrder (lowerChars f.field_name) (ck.pattern.map String.data) = true
    · simp only [dateInner, h, if_true]
      exact ⟨rfl, ih (c + 1)⟩
    · simp only [dateInner, h, if_false]
      exact ih c

theorem dateAux_chained (fs : List CRFField) (c : Nat) :
    chained c (dateAux fs c).1 (dateAux fs c).2 := by
  induction fs generalizing c with
  | nil => exact chained_nil c
  | cons f fs ih =>
    by_cases h : f.data_type = "date"
    · simp only [dateAux, h, if_true]
      exact chained_append (dateInner_chained f dateChecks c) (ih _)
    · simp only [dateAux, h, if_false]
      exact ih c

theorem logicalAux_chained (fs : List CRFField) (c : Nat) :
    chained c (logicalAux fs c).1 (logicalAux fs c).2 := by
  induction fs generalizing c with
  | nil => exact chained_nil c
  | cons f fs ih =>
    by_cases h : ((containsSub (lowerChars f.field_name) "indicate".data
          || containsSub (lowerChars f.field_name) "occurred".data)
        && (match f.valid_values with
            | some vs => vs.contains "Yes"
            | none => false)) = true
    · simp only [logicalAux, h, if_true]
      exact ⟨rfl, ih (c + 1)⟩
    · simp only [logicalAux, h, if_false]
      exact ih c

theorem deviationAux_chained (cks : List DeviationCheck) (c : Nat) :
    chained c (deviationAux cks c).1 (deviationAux cks c).2 := by
  induction cks generalizing c with
  | nil => exact chained_nil c
  | cons ck cks ih => exact ⟨rfl, ih (c + 1)⟩

theorem generateCrossFormValidations_chained (g : DVPGenerator) :
    chained g.rule_counter (generateCrossFormValidations g).1
      (generateCrossFormValidations g).2.rule_counter := by
  by_cases h : (g.crf_fields.filter fun f =>
      containsSub (lowerChars f.field_name) "subject".data
        && containsSub (lowerChars f.field_name) "id".data).length > 1
  · simp only [generateCrossFormValidations, if_pos h]
    exact ⟨rfl, rfl⟩
  · simp only [generateCrossFormValidations, if_neg h]
    exact chained_nil _

theorem generateRequiredFieldChecks_chained (g : DVPGenerator) :
    chained g.rule_counter (generateRequiredFieldChecks g).1
      (generateRequiredFieldChecks g).2.rule_counter :=
  requiredAux_chained g.crf_fields g.rule_counter

theorem generateRangeChecks_chained (g : DVPGenerator) :
    chained g.rule_counter (generateRangeChecks g).1
      (generateRangeChecks g).2.rule_counter :=
  rangeAux_chained g.crf_fields g.rule_counter

theorem generateDateConsistencyChecks_chained (g : DVPGenerator) :
    chained g.rule_counter (generateDateConsistencyChecks g).1
      (generateDateConsistencyChecks g).2.rule_counter :=
  dateAux_chained g.crf_fields g.rule_counter

theorem generateLogicalChecks_chained (g : DVPGenerator) :
    chained g.rule_counter (generateLogicalChecks g).1
      (generateLogicalChecks g).2.rule_counter :=
  logicalAux_chained g.crf_fields g.rule_counter

theorem generateProtocolDeviationChecks_chained (g : DVPGenerator) :
    chained g.rule_counter (generateProtocolDeviationChecks g).1
      (generateProtocolDeviationChecks g).2.rule_counter :=
  deviationAux_chained deviationChecks g.rule_counter

/-- The non-counter state components the per-category generators leave
untouched (all of them bump only `rule_counter`). -/
theorem generateCrossFormValidations_state (g : DVPGenerator) :
    (generateCrossFormValidations g).2.crf_fields = g.crf_fields ∧
    (generateCrossFormValidations g).2.validation_rules = g.validation_rules := by
  by_cases h : (g.crf_fields.filter fun f =>
      containsSub (lowerChars f.field_name) "subject".data
        && containsSub (lowerChars f.field_name) "id".data).length > 1
  · simp only [generateCrossFormValidations, if_pos h]
    exact ⟨trivial, trivial⟩
  · simp only [generateCrossFormValidations, if_neg h]
    exact ⟨trivial, trivial⟩

theorem generateAllRules_chained (g : DVPGenerator) :
    chained g.rule_counter (generateAllRules g).1
      (generateAllRules g).2.rule_counter :=
  chained_append
    (chained_append
      (chained_append
        (chained_append
          (chained_append
            (generateRequiredFieldChecks_chained g)
            (generateRangeChecks_chained _))
          (generateDateConsistencyChecks_chained _))
        (generateLogicalChecks_chained _))
      (generateCrossFormValidations_chained _))
    (generateProtocolDeviationChecks_chained _)

theorem generateAllRules_state (g : DVPGenerator) :
    (generateAllRules g).2.crf_fields = g.crf_fields ∧
    (generateAllRules g).2.validation_rules
      = g.validation_rules ++ (generateAllRules g).1 := by
  constructor
  · show (generateCrossFormValidations _).2.crf_fields = g.crf_fields
    exact (generateCrossFormValidations_state _).1
  · show (generateCrossFormValidations _).2.validation_rules ++ _ = _
    rw [(generateCrossFormValidations_state _).2]
    rfl

theorem applyOp_chained_ok (g : DVPGenerator) (op : GenOp)
    (h : (applyOp g op).2.2 = true) :
    chained g.rule_counter (applyOp g op).2.1 (applyOp g op).1.rule_counter := by
  cases op with
  | addFields fs => exact chained_nil _
  | genRequired => exact generateRequiredFieldChecks_chained g
  | genRange => exact generateRangeChecks_chained g
  | genDate => exact generateDateConsistencyChecks_chained g
  | genLogical => exact generateLogicalChecks_chained g
  | genCross => exact generateCrossFormValidations_chained g
  | genDeviation => exact generateProtocolDeviationChecks_chained g
  | genAll => exact generateAllRules_chained g
  | addCustom d q sv vt fo fi =>
    by_cases hok : d = "" ∨ q = ""
    · exfalso
      simp only [applyOp, addCustomRule, if_pos hok, Option.isSome] at h
      exact Bool.noConfusion h
    · simp only [applyOp, addCustomRule, if_neg hok]
      exact ⟨rfl, rfl⟩

theorem applyOp_counter_le (g : DVPGenerator) (op : GenOp) :
    g.rule_counter ≤ (applyOp g op).1.rule_counter := by
  cases op with
  | addFields fs => exact le_rfl
  | genRequired =>
    show g.rule_counter ≤ (generateRequiredFieldChecks g).2.rule_counter
    have := chained_counter (generateRequiredFieldChecks_chained g) ; omega
  | genRange =>
    show g.rule_counter ≤ (generateRangeChecks g).2.rule_counter
    have := chained_counter (generateRangeChecks_chained g) ; omega
  | genDate =>
    show g.rule_counter ≤ (generateDateConsistencyChecks g).2.rule_counter
    have := chained_counter (generateDateConsistencyChecks_chained g) ; omega
  | genLogical =>
    show g.rule_counter ≤ (generateLogicalChecks g).2.rule_counter
    have := chained_counter (generateLogicalChecks_chained g) ; omega
  | genCross =>
    show g.rule_counter ≤ (generateCrossFormValidations g).2.rule_counter
    have := chained_counter (generateCrossFormValidations_chained g) ; omega
  | genDeviation =>
    show g.rule_counter ≤ (generateProtocolDeviationChecks g).2.rule_counter
    have := chained_counter (generateProtocolDeviationChecks_chained g) ; omega
  | genAll =>
    show g.rule_counter ≤ (generateAllRules g).2.rule_counter
    have := chained_counter (generateAllRules_chained g) ; omega
  | addCustom d q sv vt fo fi =>
    by_cases hok : d = "" ∨ q = ""
    · simp only [applyOp, addCustomRule, if_pos hok]
      omega
    · simp only [applyOp, addCustomRule, if_neg hok]
      omega

theorem applyOp_created_of_not_ok (g : DVPGenerator) (op : GenOp)
    (h : (applyOp g op).2.2 = false) : (applyOp g op).2.1 = [] := by
  cases op with
  | addCustom d q sv vt fo fi =>
    show ((addCustomRule g d q sv vt fo fi).1).toList = []
    cases hp : (addCustomRule g d q sv vt fo fi).1 with
    | none => rfl
    | some r =>
      exfalso
      have : ((addCustomRule g d q sv vt fo fi).1).isSome = false := h
      rw [hp] at this
      exact Bool.noConfusion this
  | addFields fs => exact Bool.noConfusion h
  | genRequired => exact Bool.noConfusion h
  | genRange => exact Bool.noConfusion h
  | genDate => exact Bool.noConfusion h
  | genLogical => exact Bool.noConfusion h
  | genCross => exact Bool.noConfusion h
  | genDeviation => exact Bool.noConfusion h
  | genAll => exact Bool.noConfusion h

/-- Every lifetime's created rules carry successive values of the shared
counter, which never exceeds the final counter. -/
theorem runOps_chained (ops : List GenOp) (g : DVPGenerator) :
    ∃ c, chained g.rule_counter (runOps g ops).2 c
      ∧ c ≤ (runOps g ops).1.rule_counter := by
  induction ops generalizing g with
  | nil => exact ⟨g.rule_counter, chained_nil _, le_rfl⟩
  | cons op ops ih =>
    by_cases h : (applyOp g op).2.2 = true
    · simp only [runOps, h, if_true]
      obtain ⟨c, hc, hle⟩ := ih (applyOp g op).1
      exact ⟨c, chained_append (applyOp_chained_ok g op h) hc, hle⟩
    · rw [Bool.not_eq_true] at h
      simp only [runOps, h, Bool.false_eq_true, if_false]
      rw [applyOp_created_of_not_ok g op h]
      exact ⟨g.rule_counter, chained_nil _, applyOp_counter_le g op⟩

theorem runOps_nodup (ops : List GenOp) (g : DVPGenerator) :
    ((runOps g ops).2.map (·.rule_id)).Nodup := by
  obtain ⟨c, hc, _⟩ := runOps_chained ops g
  exact chained_nodup hc

/-! Batch sizes depend only on the field catalogue, not on the counter. -/

theorem requiredAux_len (fs : List CRFField) (c c' : Nat) :
    (requiredAux fs c).1.length = (requiredAux fs c').1.length := by
  induction fs generalizing c c' with
  | nil => rfl
  | cons f fs ih =>
    by_cases h : f.required
    · simp only [requiredAux, h, if_true, List.length_cons]
      exact congrArg Nat.succ (ih (c + 1) (c' + 1))
    · simp only [requiredAux, h, if_false]
      exact ih c c'

theorem rangeAux_len (fs : List CRFField) (c c' : Nat) :
    (rangeAux fs c).1.length = (rangeAux fs c').1.length := by
  induction fs generalizing c c' with
  | nil => rfl
  | cons f fs ih =>
    by_cases h : f.data_type = "numeric" ∧ (f.min_value ≠ none ∨ f.max_value ≠ none)
    · simp only [rangeAux, if_pos h, List.length_cons]
      exact congrArg Nat.succ (ih (c + 1) (c' + 1))
    · simp only [rangeAux, if_neg h]
      exact ih c c'

theorem dateInner_len (f : CRFField) (cks : List DateCheck) (c c' : Nat) :
    (dateInner f cks c).1.length = (dateInner f cks c').1.length := by
  induction cks generalizing c c' with
  | nil => rfl
  | cons ck cks ih =>
    by_cases h : containsInOrder (lowerChars f.field_name) (ck.pattern.map String.data) = true
    · simp only [dateInner, h, if_true, List.length_cons]
      exact congrArg Nat.succ (ih (c + 1) (c' + 1))
    · simp only [dateInner, h, if_false]
      exact ih c c'

theorem dateAux_len (fs : List CRFField) (c c' : Nat) :
    (dateAux fs c).1.length = (dateAux fs c').1.length := by
  induction fs generalizing c c' with
  | nil => rfl
  | cons f fs ih =>
    by_cases h : f.data_type = "date"
    · simp only [dateAux, h, if_true, List.length_append]
      rw [dateInner_len f dateChecks c c', ih _ _]
    · simp only [dateAux, h, if_false]
      exact ih c c'

theorem logicalAux_len (fs : List CRFField) (c c' : Nat) :
    (logicalAux fs c).1.length = (logicalAux fs c').1.length := by
  induction fs generalizing c c' with
  | nil => rfl
  | cons f fs ih =>
    by_cases h : ((containsSub (lowerChars f.field_name) "indicate".data
          || containsSub (lowerChars f.field_name) "occurred".data)
        && (match f.valid_values with
            | some vs => vs.contains "Yes"
            | none => false)) = true
    · simp only [logicalAux, h, if_true, List.length_cons]
      exact congrArg Nat.succ (ih (c + 1) (c' + 1))
    · simp only [logicalAux, h, if_false]
      exact ih c c'

theorem deviationAux_len (cks : List DeviationCheck) (c : Nat) :
    (deviationAux cks c).1.length = cks.length := by
  induction cks generalizing c with
  | nil => rfl
  | cons ck cks ih => simpa [deviationAux] using ih (c + 1)

/-- Proof-layer abbreviation: the cross-form batch size determined by the
field catalogue. -/
def crossLen (fs : List CRFField) : Nat :=
  if (fs.filter fun f =>
      containsSub (lowerChars f.field_name) "subject".data
        && containsSub (lowerChars f.field_name) "id".data).length > 1
  then 1 else 0

theorem cross_len (g : DVPGenerator) :
    (generateCrossFormValidations g).1.length = crossLen g.crf_fields := by
  by_cases h : (g.crf_fields.filter fun f =>
      containsSub (lowerChars f.field_name) "subject".data
        && containsSub (lowerChars f.field_name) "id".data).length > 1
  · simp only [generateCrossFormValidations, crossLen, if_pos h]
    rfl
  · simp only [generateCrossFormValidations, crossLen, if_neg h]
    rfl

theorem generateRequiredFieldChecks_len (g : DVPGenerator) :
    (generateRequiredFieldChecks g).1.length = (requiredAux g.crf_fields 0).1.length :=
  requiredAux_len g.crf_fields g.rule_counter 0

theorem generateRangeChecks_len (g : DVPGenerator) :
    (generateRangeChecks g).1.length = (rangeAux g.crf_fields 0).1.length :=
  rangeAux_len g.crf_fields g.rule_counter 0

theorem generateDateConsistencyChecks_len (g : DVPGenerator) :
    (generateDateConsistencyChecks g).1.length = (dateAux g.crf_fields 0).1.length :=
  dateAux_len g.crf_fields g.rule_counter 0

theorem generateLogicalChecks_len (g : DVPGenerator) :
    (generateLogicalChecks g).1.length = (logicalAux g.crf_fields 0).1.length :=
  logicalAux_len g.crf_fields g.rule_counter 0

theorem generateProtocolDeviationChecks_len (g : DVPGenerator) :
    (generateProtocolDeviationChecks g).1.length = 4 :=
  deviationAux_len deviationChecks g.rule_counter

theorem generateRequiredFieldChecks_fields (g : DVPGenerator) :
    (generateRequiredFieldChecks g).2.crf_fields = g.crf_fields := rfl

theorem generateRangeChecks_fields (g : DVPGenerator) :
    (generateRangeChecks g).2.crf_fields = g.crf_fields := rfl

theorem generateDateConsistencyChecks_fields (g : DVPGenerator) :
    (generateDateConsistencyChecks g).2.crf_fields = g.crf_fields := rfl

theorem generateLogicalChecks_fields (g : DVPGenerator) :
    (generateLogicalChecks g).2.crf_fields = g.crf_fields := rfl

theorem generateAllRules_len (g : DVPGenerator) :
    (generateAllRules g).1.length
      = (requiredAux g.crf_fields 0).1.length + (rangeAux g.crf_fields 0).1.length
        + (dateAux g.crf_fields 0).1.length + (logicalAux g.crf_fields 0).1.length
        + crossLen g.crf_fields + 4 := by
  show ((_ : List ValidationRule) ++ _ ++ _ ++ _ ++ _ ++ _).length = _
  simp only [List.length_append]
  rw [generateRequiredFieldChecks_len, generateRangeChecks_len,
    generateDateConsistencyChecks_len, generateLogicalChecks_len, cross_len,
    generateProtocolDeviationChecks_len]
  simp only [generateRequiredFieldChecks_fields, generateRangeChecks_fields,
    generateDateConsistencyChecks_fields, generateLogicalChecks_fields]

theorem generateAllRules_len_eq (g g' : DVPGenerator) (h : g.crf_fields = g'.crf_fields) :
    (generateAllRules g).1.length = (generateAllRules g').1.length := by
  rw [generateAllRules_len, generateAllRules_len, h]

/-! ### Workflow orchestration (`automation_workflow.py`)

The external collaborators (the Gemini-backed PDF parser, the three
python-docx document builders) appear only inside per-step `try` blocks.
A `World` value fixes their outcomes: the parser either returns a
`ParsedProtocol` or raises with a message, and each document builder either
completes or raises with a message.  `datetime.now().isoformat()` is
modelled by the monotone `clock` of `AutoState`.  In Python each step
appends its `GenerationTask` object to the report and then mutates it in
place; the embedding threads the task value and appends its final value,
which yields the same final report. -/

/-- `ProtocolInfo` of `modules/protocol_parser.py`, as consumed by the
workflow (named `ParsedProtocol` here to avoid clashing with the DVP-side
`ProtocolInfo`).  Its fields are `Optional` in Python; the claims only
exercise runs where the accessed fields are present, so they are modelled
as plain values, and `raw_data` is not modelled. -/
structure ParsedProtocol where
  study_title : String
  protocol_number : String
  sponsor : String
  phase : String
  target_population : String
  crf_domains : Option (List String) := none
deriving DecidableEq, Repr

/-- `GenerationTask` dataclass. -/
structure GenerationTask where
  task_id : String
  task_type : String
  status : String := "pending"
  output_path : Option String := none
  error_message : Option String := none
  start_time : Option Nat := none
  end_time : Option Nat := none
deriving DecidableEq, Repr

/-- `AutomationReport` dataclass. -/
structure AutomationReport where
  protocol_path : String
  output_directory : String
  start_time : Nat
  end_time : Option Nat := none
  total_tasks : Nat := 0
  completed_tasks : Nat := 0
  failed_tasks : Nat := 0
  skipped_tasks : Nat := 0
  tasks : List GenerationTask := []
  generated_files : List String := []
  errors : List String := []
  protocol_info : Option ParsedProtocol := none
deriving DecidableEq, Repr

/-- The mutable state of a `ClinicalDocAutomation` instance, plus the
timestamp clock. -/
structure AutoState where
  protocol_info : Option ParsedProtocol := none
  report : AutomationReport
  output_dir : String
  clock : Nat
deriving DecidableEq, Repr

/-- Outcomes of the external collaborators for one run:
`parse_result = none` models the parser raising (with `parse_error` as the
exception text); each `_ok` flag tells whether the corresponding document
builder's `try`-block body completes. -/
structure World where
  parse_result : Option ParsedProtocol := none
  parse_error : String := ""
  crf_ok : Bool := true
  crf_error : String := ""
  dvp_ok : Bool := true
  dvp_error : String := ""
  ug_ok : Bool := true
  ug_error : String := ""
deriving DecidableEq, Repr

/-- `_update_task_status`.  Mirrors the Python branch structure: set the
status; `running` records a start timestamp, a terminal status records an
end timestamp; a supplied output path is stored (and, when completed,
appended to `generated_files`); a supplied error message is stored and
appended (task-type-prefixed) to the report's error list; the status
counters are bumped. -/
def updateTaskStatus (st : AutoState) (task : GenerationTask) (status : String)
    (output_path : Option String) (error_message : Option String) :
    AutoState × GenerationTask :=
  let task := { task with status := status }
  let (st, task) :=
    if status = "running" then
      ({ st with clock := st.clock + 1 }, { task with start_time := some st.clock })
    else if status = "completed" ∨ status = "failed" ∨ status = "skipped" then
      ({ st with clock := st.clock + 1 }, { task with end_time := some st.clock })
    else (st, task)
  let (st, task) :=
    match output_path with
    | some p =>
      let task := { task with output_path := some p }
      if status = "completed" then
        ({ st with report :=
            { st.report with generated_files := st.report.generated_files ++ [p] } },
         task)
      else (st, task)
    | none => (st, task)
  let (st, task) :=
    match error_message with
    | some m =>
      ({ st with report :=
          { st.report with
            errors := st.report.errors ++ ["[" ++ task.task_type ++ "] " ++ m] } },
       { task with error_message := some m })
    | none => (st, task)
  let st :=
    if status = "completed" then
      { st with report := { st.report with completed_tasks := st.report.completed_tasks + 1 } }
    else if status = "failed" then
      { st with report := { st.report with failed_tasks := st.report.failed_tasks + 1 } }
    else if status = "skipped" then
      { st with report := { st.report with skipped_tasks := st.report.skipped_tasks + 1 } }
    else st
  (st, task)

/-- `self.report.total_tasks += 1`. -/
def bumpTotal (st : AutoState) : AutoState :=
  { st with report := { st.report with total_tasks := st.report.total_tasks + 1 } }

/-- Commit the final value of the task object appended at step start. -/
def appendTask (st : AutoState) (t : GenerationTask) : AutoState :=
  { st with report := { st.report with tasks := st.report.tasks ++ [t] } }

/-- Python `s.replace('/', '_')` (single-character replacement). -/
def replaceSlash (s : String) : String :=
  String.mk (s.data.map fun c => if c = '/' then '_' else c)

/-- `parse_protocol`: create/append the task, mark it running, then either
store the parsed protocol (task completed, JSON path recorded) or record
the failure; returns the step's success flag. -/
def parseProtocol (w : World) (st : AutoState) : Bool × AutoState :=
  let task : GenerationTask := { task_id := "parse_protocol", task_type := "protocol_parsing" }
  let st := bumpTotal st
  let (st, task) := updateTaskStatus st task "running" none none
  match w.parse_result with
  | some p =>
    let json_output := st.output_dir ++ "/protocol_info.json"
    let st := { st with
      protocol_info := some p
      report := { st.report with protocol_info := some p } }
    let (st, task) := updateTaskStatus st task "completed" (some json_output) none
    (true, appendTask st task)
  | none =>
    let error_msg := "Protocol 解析失敗: " ++ w.parse_error
    let (st, task) := updateTaskStatus st task "failed" none (some error_msg)
    (false, appendTask st task)

/-- `generate_crf`: create/append the task and bump the total, then check
the precondition (parsed protocol present) — the task is marked `skipped`
directly from `pending`, with no start timestamp, when it is missing;
otherwise mark running and attempt generation. -/
def generateCrf (w : World) (st : AutoState) : Bool × AutoState :=
  let task : GenerationTask := { task_id := "generate_crf", task_type := "crf" }
  let st := bumpTotal st
  match st.protocol_info with
  | none =>
    let error_msg := "無法生成 CRF：Protocol 資訊未解析"
    let (st, task) := updateTaskStatus st task "skipped" none (some error_msg)
    (false, appendTask st task)
  | some p =>
    let (st, task) := updateTaskStatus st task "running" none none
    if w.crf_ok then
      let output_file := st.output_dir ++ "/CRF_" ++ replaceSlash p.protocol_number ++ ".docx"
      let (st, task) := updateTaskStatus st task "completed" (some output_file) none
      (true, appendTask st task)
    else
      let error_msg := "CRF 生成失敗: " ++ w.crf_error
      let (st, task) := updateTaskStatus st task "failed" none (some error_msg)
      (false, appendTask st task)

/-- `generate_dvp`: same step contract as `generate_crf`.  (On success the
step internally builds a `DVPGenerator` over the standard field catalogue
and renders the document; that work has no observable effect on the report
beyond the output path.) -/
def generateDvp (w : World) (st : AutoState) : Bool × AutoState :=
  let task : GenerationTask := { task_id := "generate_dvp", task_type := "dvp" }
  let st := bumpTotal st
  match st.protocol_info with
  | none =>
    let error_msg := "無法生成 DVP：Protocol 資訊未解析"
    let (st, task) := updateTaskStatus st task "skipped" none (some error_msg)
    (false, appendTask st task)
  | some p =>
    let (st, task) := updateTaskStatus st task "running" none none
    if w.dvp_ok then
      let output_file := st.output_dir ++ "/DVP_" ++ replaceSlash p.protocol_number ++ ".docx"
      let (st, task) := updateTaskStatus st task "completed" (some output_file) none
      (true, appendTask st task)
    else
      let error_msg := "DVP 生成失敗: " ++ w.dvp_error
      let (st, task) := updateTaskStatus st task "failed" none (some error_msg)
      (false, appendTask st task)

/-- `generate_user_guide`: same step contract. -/
def generateUserGuide (w : World) (st : AutoState) : Bool × AutoState :=
  let task : GenerationTask := { task_id := "generate_user_guide", task_type := "user_guide" }
  let st := bumpTotal st
  match st.protocol_info with
  | none =>
    let error_msg := "無法生成 User Guide：Protocol 資訊未解析"
    let (st, task) := updateTaskStatus st task "skipped" none (some error_msg)
    (false, appendTask st task)
  | some p =>
    let (st, task) := updateTaskStatus st task "running" none none
    if w.ug_ok then
      let output_file := st.output_dir ++ "/UserGuide_" ++ replaceSlash p.protocol_number ++ ".docx"
      let (st, task) := updateTaskStatus st task "completed" (some output_file) none
      (true, appendTask st task)
    else
      let error_msg := "User Guide 生成失敗: " ++ w.ug_error
      let (st, task) := updateTaskStatus st task "failed" none (some error_msg)
      (false, appendTask st task)

/-- The fixed skip message of the DMP stub. -/
def dmpMsg : String := "DMP 生成器尚未實現"

/-- `generate_dmp`: permanently a stub — the task is created, appended, and
immediately marked `skipped` with the fixed message, and the step returns
`True`. -/
def generateDmp (st : AutoState) : Bool × AutoState :=
  let task : GenerationTask := { task_id := "generate_dmp", task_type := "dmp" }
  let st := bumpTotal st
  let (st, task) := updateTaskStatus st task "skipped" none (some dmpMsg)
  (true, appendTask st task)

/-- `generate_final_report`: sets the report's end timestamp (the JSON/text
file writes are external effects). -/
def generateFinalReport (st : AutoState) : AutoState :=
  { st with
    clock := st.clock + 1
    report := { st.report with end_time := some st.clock } }

/-- `run_all`: parse first and halt on parse failure; otherwise run each
requested step unconditionally, ignoring the steps' returned flags; the
`finally` block always produces the final report.  The modelled steps are
total, so the top-level `except` (which would append an unexpected
exception to the error list) is unreachable. -/
def runAll (w : World) (generate_types : Option (List String)) (st : AutoState) : AutoState :=
  let gts := generate_types.getD ["crf", "dvp", "user_guide", "dmp"]
  let pres := parseProtocol w st
  let st :=
    if pres.1 then
      let st := if gts.contains "crf" then (generateCrf w pres.2).2 else pres.2
      let st := if gts.contains "dvp" then (generateDvp w st).2 else st
      let st := if gts.contains "user_guide" then (generateUserGuide w st).2 else st
      let st := if gts.contains "dmp" then (generateDmp st).2 else st
      st
    else pres.2
  generateFinalReport st

/-- `ClinicalDocAutomation.__init__` after its path/output checks succeed:
fresh report with the construction-time start timestamp. -/
def initState (protocol_pdf output_dir : String) (clk : Nat) : AutoState :=
  { protocol_info := none
    output_dir := output_dir
    clock := clk + 1
    report :=
      { protocol_path := protocol_pdf
        output_directory := output_dir
        start_time := clk } }

/-- The standard CRF field catalogue `_prepare_crf_fields_for_dvp` feeds to
the DVP generator. -/
def prepareCrfFieldsForDvp : List CRFField :=
  [ { field_name := "subject_id", field_label := "Subject ID"
      form_name := "Demographics", data_type := "text", required := true },
    { field_name := "age", field_label := "Age"
      form_name := "Demographics", data_type := "numeric", required := true
      min_value := some 18, max_value := some 120, units := some "years" },
    { field_name := "date_of_birth", field_label := "Date of Birth"
      form_name := "Demographics", data_type := "date", required := true },
    { field_name := "systolic_bp", field_label := "Systolic Blood Pressure"
      form_name := "Vital Signs", data_type := "numeric", required := true
      min_value := some 70, max_value := some 200, units := some "mmHg" },
    { field_name := "diastolic_bp", field_label := "Diastolic Blood Pressure"
      form_name := "Vital Signs", data_type := "numeric", required := true
      min_value := some 40, max_value := some 130, units := some "mmHg" },
    { field_name := "heart_rate", field_label := "Heart Rate"
      form_name := "Vital Signs", data_type := "numeric", required := true
      min_value := some 40, max_value := some 200, units := some "bpm" },
    { field_name := "ae_term", field_label := "Adverse Event Term"
      form_name := "Adverse Events", data_type := "text", required := true },
    { field_name := "ae_start_date", field_label := "AE Start Date"
      form_name := "Adverse Events", data_type := "date", required := true },
    { field_name := "ae_end_date", field_label := "AE End Date"
      form_name := "Adverse Events", data_type := "date", required := false } ]

/-! ### CLI surface (`main` and `BatchProcessor`)

For each protocol input, constructing `ClinicalDocAutomation` either raises
(missing file — before any task exists) or succeeds, after which `run_all`
executes against a `World`.  In single mode a construction failure
propagates to `main`'s generic `except Exception` handler (exit code 1); in
batch mode `process_protocols` catches it, prints it, and omits the input
from `self.results`. -/

/-- One protocol input's fate: the orchestrator constructor raises, or the
run proceeds with the given collaborator outcomes and paths. -/
inductive RunOutcome where
  | constructionFailed (msg : String)
  | ran (w : World) (protocol_pdf output_dir : String) (clk : Nat)
deriving DecidableEq, Repr

/-- The report of one input, when the orchestrator was constructed. -/
def reportOf (gts : Option (List String)) : RunOutcome → Option AutomationReport
  | .constructionFailed _ => none
  | .ran w p od clk => some (runAll w gts (initState p od clk)).report

/-- A CLI invocation: `--protocol` (single) or `--batch`. -/
inductive MainInvocation where
  | single (o : RunOutcome)
  | batch (os : List RunOutcome)
deriving DecidableEq, Repr

/-- `BatchProcessor.process_protocols`: construction failures are caught and
dropped from the result list; every constructed run is recorded. -/
def processProtocols (gts : Option (List String)) (os : List RunOutcome) :
    List AutomationReport :=
  os.filterMap (reportOf gts)

/-- The process exit code of `main`.  `KeyboardInterrupt` → 130; a single
run exits 1 iff its report has a failed task, except that an exception
reaching the top-level handler (orchestrator construction failure) exits 1;
a batch exits 1 iff any recorded report has a failed task. -/
def mainExit (interrupted : Bool) (inv : MainInvocation)
    (gts : Option (List String)) : Nat :=
  if interrupted then 130
  else
    match inv with
    | .single o =>
      match reportOf gts o with
      | none => 1
      | some r => if r.failed_tasks > 0 then 1 else 0
    | .batch os =>
      if (processProtocols gts os).any (fun r => r.failed_tasks > 0) then 1 else 0

/-- Total failed-task count over an invocation's reports (an input whose
orchestrator never constructed contributes no tasks). -/
def failedTasksOf (gts : Option (List String)) : MainInvocation → Nat
  | .single o => ((reportOf gts o).map (·.failed_tasks)).getD 0
  | .batch os => ((processProtocols gts os).map (·.failed_tasks)).sum

/-! Step-effect lemmas: every step appends exactly one task of its type and
bumps the total, in all of its branches (skip, completed, failed), and
leaves the stored protocol untouched. -/

theorem parseProtocol_effect (w : World) (st : AutoState) :
    ((parseProtocol w st).2.report.tasks.map (·.task_type))
      = st.report.tasks.map (·.task_type) ++ ["protocol_parsing"] ∧
    (parseProtocol w st).2.report.total_tasks = st.report.total_tasks + 1 ∧
    (parseProtocol w st).1 = (w.parse_result).isSome ∧
    (parseProtocol w st).2.protocol_info = w.parse_result.or st.protocol_info := by
  obtain ⟨pi, r, od, clk⟩ := st
  obtain ⟨pr, pe, cok, ce, dok, de, uok, ue⟩ := w
  cases pr <;>
    exact ⟨by simp [parseProtocol, appendTask, updateTaskStatus, bumpTotal], rfl, rfl, rfl⟩

theorem generateCrf_effect (w : World) (st : AutoState) :
    ((generateCrf w st).2.report.tasks.map (·.task_type))
      = st.report.tasks.map (·.task_type) ++ ["crf"] ∧
    (generateCrf w st).2.report.total_tasks = st.report.total_tasks + 1 ∧
    (generateCrf w st).2.protocol_info = st.protocol_info := by
  obtain ⟨pi, r, od, clk⟩ := st
  obtain ⟨pr, pe, cok, ce, dok, de, uok, ue⟩ := w
  cases pi <;> cases cok <;>
    exact ⟨by simp [generateCrf, appendTask, updateTaskStatus, bumpTotal], rfl, rfl⟩

theorem generateDvp_effect (w : World) (st : AutoState) :
    ((generateDvp w st).2.report.tasks.map (·.task_type))
      = st.report.tasks.map (·.task_type) ++ ["dvp"] ∧
    (generateDvp w st).2.report.total_tasks = st.report.total_tasks + 1 ∧
    (generateDvp w st).2.protocol_info = st.protocol_info := by
  obtain ⟨pi, r, od, clk⟩ := st
  obtain ⟨pr, pe, cok, ce, dok, de, uok, ue⟩ := w
  cases pi <;> cases dok <;>
    exact ⟨by simp [generateDvp, appendTask, updateTaskStatus, bumpTotal], rfl, rfl⟩

theorem generateUserGuide_effect (w : World) (st : AutoState) :
    ((generateUserGuide w st).2.report.tasks.map (·.task_type))
      = st.report.tasks.map (·.task_type) ++ ["user_guide"] ∧
    (generateUserGuide w st).2.report.total_tasks = st.report.total_tasks + 1 ∧
    (generateUserGuide w st).2.protocol_info = st.protocol_info := by
  obtain ⟨pi, r, od, clk⟩ := st
  obtain ⟨pr, pe, cok, ce, dok, de, uok, ue⟩ := w
  cases pi <;> cases uok <;>
    exact ⟨by simp [generateUserGuide, appendTask, updateTaskStatus, bumpTotal], rfl, rfl⟩

theorem generateDmp_effect (st : AutoState) :
    ((generateDmp st).2.report.tasks.map (·.task_type))
      = st.report.tasks.map (·.task_type) ++ ["dmp"] ∧
    (generateDmp st).2.report.total_tasks = st.report.total_tasks + 1 ∧
    (generateDmp st).2.protocol_info = st.protocol_info := by
  obtain ⟨pi, r, od, clk⟩ := st
  exact ⟨by simp [generateDmp, appendTask, updateTaskStatus, bumpTotal], rfl, rfl⟩

theorem generateFinalReport_effect (st : AutoState) :
    (generateFinalReport st).report.tasks = st.report.tasks ∧
    (generateFinalReport st).report.total_tasks = st.report.total_tasks ∧
    (generateFinalReport st).report.end_time = some st.clock :=
  ⟨rfl, rfl, rfl⟩

/-- A step guarded by the `generate_types` membership test: it appends its
one task exactly when requested. -/
theorem condStep_effect (b : Bool) (f : AutoState → AutoState) (ty : String)
    (hf : ∀ st, ((f st).report.tasks.map (·.task_type)
          = st.report.tasks.map (·.task_type) ++ [ty])
        ∧ (f st).report.total_tasks = st.report.total_tasks + 1
        ∧ (f st).protocol_info = st.protocol_info) (st : AutoState) :
    ((if b then f st else st).report.tasks.map (·.task_type)
        = st.report.tasks.map (·.task_type) ++ (if b then [ty] else []))
    ∧ ((if b then f st else st).report.total_tasks
        = st.report.total_tasks + (if b then 1 else 0))
    ∧ ((if b then f st else st).protocol_info = st.protocol_info) := by
  cases b
  · simp
  · simpa using hf st

/-- The shape of a whole run's report: the parse task always appears; the
four generation tasks appear iff parsing succeeded and they were requested
— independent of whether the steps succeeded, failed, or were skipped —
and the final report (end timestamp) is always produced. -/
theorem runAll_types (w : World) (gts : List String) (st : AutoState) :
    (((runAll w (some gts) st).report.tasks.map (·.task_type))
      = st.report.tasks.map (·.task_type) ++ ["protocol_parsing"]
        ++ (match w.parse_result with
            | none => []
            | some _ =>
              (if gts.contains "crf" then ["crf"] else [])
              ++ ((if gts.contains "dvp" then ["dvp"] else [])
              ++ ((if gts.contains "user_guide" then ["user_guide"] else [])
              ++ (if gts.contains "dmp" then ["dmp"] else [])))))
    ∧ ((runAll w (some gts) st).report.total_tasks
      = st.report.total_tasks + 1
        + (match w.parse_result with
           | none => 0
           | some _ =>
             (if gts.contains "crf" then 1 else 0)
             + (if gts.contains "dvp" then 1 else 0)
             + (if gts.contains "user_guide" then 1 else 0)
             + (if gts.contains "dmp" then 1 else 0)))
    ∧ (∃ t, (runAll w (some gts) st).report.end_time = some t) := by
  have hp := parseProtocol_effect w st
  show ((generateFinalReport _).report.tasks.map (·.task_type) = _)
    ∧ ((generateFinalReport _).report.total_tasks = _)
    ∧ (∃ t, (generateFinalReport _).report.end_time = some t)
  simp only [Option.getD_some]
  cases hw : w.parse_result with
  | none =>
    have hfalse : (parseProtocol w st).1 = false := by
      rw [hp.2.2.1, hw] ; rfl
    rw [hfalse]
    simp only [Bool.false_eq_true, if_false]
    refine ⟨?_, ?_, ⟨_, rfl⟩⟩
    · rw [(generateFinalReport_effect _).1, hp.1]
      simp
    · rw [(generateFinalReport_effect _).2.1, hp.2.1]
  | some p =>
    have htrue : (parseProtocol w st).1 = true := by
      rw [hp.2.2.1, hw] ; rfl
    rw [htrue]
    simp only [if_true]
    set st₁ : AutoState := (parseProtocol w st).2 with hst₁
    set st₂ : AutoState :=
      if gts.contains "crf" then (generateCrf w st₁).2 else st₁ with hst₂
    set st₃ : AutoState :=
      if gts.contains "dvp" then (generateDvp w st₂).2 else st₂ with hst₃
    set st₄ : AutoState :=
      if gts.contains "user_guide" then (generateUserGuide w st₃).2 else st₃ with hst₄
    have h₁ := condStep_effect (gts.contains "crf")
      (fun s => (generateCrf w s).2) "crf" (fun s => generateCrf_effect w s) st₁
    have h₂ := condStep_effect (gts.contains "dvp")
      (fun s => (generateDvp w s).2) "dvp" (fun s => generateDvp_effect w s) st₂
    have h₃ := condStep_effect (gts.contains "user_guide")
      (fun s => (generateUserGuide w s).2) "user_guide"
      (fun s => generateUserGuide_effect w s) st₃
    have h₄ := condStep_effect (gts.contains "dmp")
      (fun s => (generateDmp s).2) "dmp" (fun s => generateDmp_effect s) st₄
    refine ⟨?_, ?_, ⟨_, rfl⟩⟩
    · rw [(generateFinalReport_effect _).1]
      rw [h₄.1, h₃.1, h₂.1, h₁.1, hp.1]
      simp [List.append_assoc]
    · rw [(generateFinalReport_effect _).2.1]
      rw [h₄.2.1, h₃.2.1, h₂.2.1, h₁.2.1, hp.2.1]
      omega

theorem any_map_eq {α β : Type} (l : List α) (f : α → β) (p : β → Bool) :
    (l.map f).any p = l.any fun a => p (f a) := by
  induction l with
  | nil => rfl
  | cons a l ih => simp [List.any_cons, ih]

theorem sum_pos_iff_any (l : List Nat) : 0 < l.sum ↔ l.any (fun n => 0 < n) = true := by
  induction l with
  | nil => simp
  | cons a l ih =>
    simp only [List.sum_cons, List.any_cons, Bool.or_eq_true, decide_eq_true_eq, ← ih]
    omega

theorem processProtocols_ran (gts : Option (List String))
    (rs : List (World × String × String × Nat)) :
    processProtocols gts (rs.map fun x => RunOutcome.ran x.1 x.2.1 x.2.2.1 x.2.2.2)
      = rs.map fun x => (runAll x.1 gts (initState x.2.1 x.2.2.1 x.2.2.2)).report := by
  induction rs with
  | nil => rfl
  | cons a rs ih => simpa [processProtocols, reportOf] using ih

/-! ### Concrete fixtures for the scenario claims -/

/-- The protocol of the C1 end-to-end scenario. -/
def protoC1 : ProtocolInfo :=
  { protocol_number := "TEST-001", protocol_title := "Test Protocol"
    sponsor := "Test Sponsor", indication := "Test Indication"
    phase := "Phase I", version := "1.0", date := "2025-11-18" }

/-- The single field of the C1 scenario:
`{name: "age", type: numeric, required: true, min: 18, max: 65}`. -/
def ageField : CRFField :=
  { field_name := "age", field_label := "Age", form_name := "Demographics"
    data_type := "numeric", required := true
    min_value := some 18, max_value := some 65 }

/-- A fresh generator whose catalogue holds exactly `ageField`. -/
def genC1 : DVPGenerator := addCrfFields (DVPGenerator.init protoC1) [ageField]

/-- A numeric field with `min_value > max_value` — accepted unchecked. -/
def badRangeField : CRFField :=
  { field_name := "weird_measure", field_label := "Weird Measure"
    form_name := "Labs", data_type := "numeric"
    min_value := some 100, max_value := some 1 }

/-- Proof-layer predicate: a numeric field whose supplied bounds are
inverted (`min_value > max_value`). -/
def violatesRange (f : CRFField) : Bool :=
  f.data_type = "numeric" &&
    (match f.min_value, f.max_value with
     | some mn, some mx => decide (mx < mn)
     | _, _ => false)

/-- A parsed protocol for workflow scenarios. -/
def pTest : ParsedProtocol :=
  { study_title := "Test Study", protocol_number := "TEST-001"
    sponsor := "Test Sponsor", phase := "Phase I"
    target_population := "Adults" }

/-- Collaborator outcomes where parsing and all document builders succeed. -/
def wOk : World := { parse_result := some pTest }

/-! ### The claims -/

/-- C1 (counterexample): with exactly the one `age` field,
`generate_all_rules()` yields 6 rules, not 2 — the four hard-coded
protocol-deviation rules are always emitted. -/
theorem c1_counterexample :
    (generateAllRules genC1).1.length = 6 ∧ (generateAllRules genC1).1.length ≠ 2 := by
  decide

/-- C1 (amended): with exactly the one `age` field, `generate_all_rules()`
yields 6 rules: one RequiredField (severity Critical), one RangeCheck
(severity Major) whose description contains "18" and "65", and the four
fixed ProtocolDeviation rules. -/
theorem c1_two_field_rules_plus_deviations :
    ((generateAllRules genC1).1.map fun r => (r.validation_type, r.severity))
      = [(.requiredField, .critical), (.rangeCheck, .major),
         (.protocolDeviation, .critical), (.protocolDeviation, .critical),
         (.protocolDeviation, .major), (.protocolDeviation, .major)]
    ∧ (((generateAllRules genC1).1.get? 1).map (·.description))
        = some "Check that Age (age) is between 18 and 65"
    ∧ containsSub "Check that Age (age) is between 18 and 65".data "18".data = true
    ∧ containsSub "Check that Age (age) is between 18 and 65".data "65".data = true := by
  refine ⟨?_, ?_, ?_, ?_⟩ <;> decide

/-- C2 (counterexample): on a freshly constructed orchestrator (protocol
not yet parsed), the CRF step's task is recorded `skipped` with *no* start
timestamp and the step returns failure — the task was never marked running,
so the precondition is checked *before* the running-mark, not after it as
the claim states. -/
theorem c2_counterexample :
    (generateCrf wOk (initState "protocol.pdf" "out" 0)).1 = false
    ∧ ((generateCrf wOk (initState "protocol.pdf" "out" 0)).2.report.tasks.map
          fun t => (t.status, t.start_time))
        = [("skipped", none)] := by
  exact ⟨rfl, rfl⟩

/-- C2 (amended): each implemented generation step (CRF, DVP, User Guide)
first creates its task record, appends it to the report and bumps the
total-task counter, and then checks the precondition *before* marking the
task running: with no parsed protocol the task goes directly from `pending`
to `skipped` (no start timestamp) with the explanatory message, the message
is recorded in the error list, and the step returns failure without
raising. -/
theorem c2_precondition_checked_before_running (w : World)
    (pi : Option ParsedProtocol) (r : AutomationReport) (od : String) (clk : Nat) :
    (pi = none →
      generateCrf w ⟨pi, r, od, clk⟩
        = (false, ⟨pi,
            { r with
              total_tasks := r.total_tasks + 1,
              skipped_tasks := r.skipped_tasks + 1,
              errors := r.errors ++ ["[crf] 無法生成 CRF：Protocol 資訊未解析"],
              tasks := r.tasks ++
                [{ task_id := "generate_crf", task_type := "crf",
                   status := "skipped", output_path := none,
                   error_message := some "無法生成 CRF：Protocol 資訊未解析",
                   start_time := none, end_time := some clk }] }, od, clk + 1⟩))
    ∧ (pi = none →
      generateDvp w ⟨pi, r, od, clk⟩
        = (false, ⟨pi,
            { r with
              total_tasks := r.total_tasks + 1,
              skipped_tasks := r.skipped_tasks + 1,
              errors := r.errors ++ ["[dvp] 無法生成 DVP：Protocol 資訊未解析"],
              tasks := r.tasks ++
                [{ task_id := "generate_dvp", task_type := "dvp",
                   status := "skipped", output_path := none,
                   error_message := some "無法生成 DVP：Protocol 資訊未解析",
                   start_time := none, end_time := some clk }] }, od, clk + 1⟩))
    ∧ (pi = none →
      generateUserGuide w ⟨pi, r, od, clk⟩
        = (false, ⟨pi,
            { r with
              total_tasks := r.total_tasks + 1,
              skipped_tasks := r.skipped_tasks + 1,
              errors := r.errors ++ ["[user_guide] 無法生成 User Guide：Protocol 資訊未解析"],
              tasks := r.tasks ++
                [{ task_id := "generate_user_guide", task_type := "user_guide",
                   status := "skipped", output_path := none,
                   error_message := some "無法生成 User Guide：Protocol 資訊未解析",
                   start_time := none, end_time := some clk }] }, od, clk + 1⟩)) := by
  refine ⟨?_, ?_, ?_⟩ <;> (rintro rfl ; rfl)

/-- C5: the DMP step is a stub for every state: it records exactly one task
— created, appended, counted, and immediately `skipped` with the fixed
"not implemented" message (never `running`, `completed`, or `failed`: no
start timestamp, completed/failed counters untouched) — the message is
prefixed into the error list, and the step returns success (`true`). -/
theorem c5_dmp_stub (pi : Option ParsedProtocol) (r : AutomationReport)
    (od : String) (clk : Nat) :
    generateDmp ⟨pi, r, od, clk⟩
      = (true, ⟨pi,
          { r with
            total_tasks := r.total_tasks + 1,
            skipped_tasks := r.skipped_tasks + 1,
            errors := r.errors ++ ["[dmp] DMP 生成器尚未實現"],
            tasks := r.tasks ++
              [{ task_id := "generate_dmp", task_type := "dmp",
                 status := "skipped", output_path := none,
                 error_message := some dmpMsg,
                 start_time := none, end_time := some clk }] }, od, clk + 1⟩) := rfl

/-- C3 (counterexample): a single-protocol invocation whose orchestrator
construction raises (e.g. the input file does not exist) exits with code 1
although no task failed — no task even exists — so "exit code non-zero iff
at least one task failed" is false. -/
theorem c3_counterexample :
    mainExit false (.single (.constructionFailed "Protocol PDF 不存在: missing.pdf")) none = 1
    ∧ failedTasksOf none (.single (.constructionFailed "Protocol PDF 不存在: missing.pdf")) = 0 :=
  ⟨rfl, rfl⟩

/-- C3 (amended): 130 on user interrupt always; for every invocation in
which the orchestrator constructs successfully for every input, the exit
code is 1 when at least one task failed and 0 otherwise.  (A construction
failure in single mode reaches the top-level handler and exits 1 despite
zero failed tasks; in batch mode it is dropped from the results.) -/
theorem c3_exit_codes :
    (∀ (inv : MainInvocation) (gts : Option (List String)), mainExit true inv gts = 130)
    ∧ (∀ (w : World) (pp od : String) (clk : Nat) (gts : Option (List String)),
        mainExit false (.single (.ran w pp od clk)) gts
          = if 0 < failedTasksOf gts (.single (.ran w pp od clk)) then 1 else 0)
    ∧ (∀ (rs : List (World × String × String × Nat)) (gts : Option (List String)),
        mainExit false
            (.batch (rs.map fun x => RunOutcome.ran x.1 x.2.1 x.2.2.1 x.2.2.2)) gts
          = if 0 < failedTasksOf gts
                (.batch (rs.map fun x => RunOutcome.ran x.1 x.2.1 x.2.2.1 x.2.2.2))
            then 1 else 0) := by
  refine ⟨fun inv gts => rfl, fun w pp od clk gts => rfl, ?_⟩
  intro rs gts
  simp only [mainExit, failedTasksOf, processProtocols_ran, Bool.false_eq_true, if_false]
  have h := sum_pos_iff_any
    ((rs.map fun x => (runAll x.1 gts (initState x.2.1 x.2.2.1 x.2.2.2)).report).map
      (·.failed_tasks))
  rw [any_map_eq] at h
  by_cases ha : ((rs.map fun x =>
      (runAll x.1 gts (initState x.2.1 x.2.2.1 x.2.2.2)).report).any
        fun r => decide (0 < r.failed_tasks)) = true
  · rw [if_pos ha, if_pos (h.mpr ha)]
  · rw [if_neg ha, if_neg (fun hc => ha (h.mp hc))]

/-- C4: a parse failure halts the run with only the parse task recorded (no
generation task record is created), while after a successful parse every
requested generation step's task is recorded — the right-hand side does not
depend on the steps' success flags, so one step's failure never prevents
the subsequent requested steps — and the final report (end timestamp) is
produced in either case. -/
theorem c4_parse_gates_generation (pres : Option ParsedProtocol)
    (pe ce de ue : String) (cok dok uok : Bool) (gts : List String)
    (pp od : String) (clk : Nat) :
    ((runAll ⟨pres, pe, cok, ce, dok, de, uok, ue⟩ (some gts)
        (initState pp od clk)).report.tasks.map (·.task_type))
      = "protocol_parsing"
        :: (match pres with
            | none => []
            | some _ =>
              (if gts.contains "crf" then ["crf"] else [])
              ++ ((if gts.contains "dvp" then ["dvp"] else [])
              ++ ((if gts.contains "user_guide" then ["user_guide"] else [])
              ++ (if gts.contains "dmp" then ["dmp"] else []))))
    ∧ ∃ t, (runAll ⟨pres, pe, cok, ce, dok, de, uok, ue⟩ (some gts)
        (initState pp od clk)).report.end_time = some t := by
  have h := runAll_types ⟨pres, pe, cok, ce, dok, de, uok, ue⟩ gts (initState pp od clk)
  refine ⟨?_, h.2.2⟩
  rw [h.1]
  cases pres <;> simp [initState]

/-- C6: over every lifetime of one generator instance (any sequence of
`add_crf_fields`, the generator methods, `generate_all_rules`, and
`add_custom_rule` calls), the created rules' ids are pairwise distinct, and
— per `chained` — each id is exactly the fixed prefix of its category
(RNG/REQ/LOG/CRS/DAT/PRO/CUS), a dash, and the 4-zero-padded value of the
single shared counter, which increases by one per created rule and never
exceeds the instance's final counter. -/
theorem c6_rule_ids_unique_and_formatted (p : ProtocolInfo) (ops : List GenOp) :
    (((runOps (DVPGenerator.init p) ops).2).map (·.rule_id)).Nodup
    ∧ ∃ c, chained 0 (runOps (DVPGenerator.init p) ops).2 c
        ∧ c ≤ (runOps (DVPGenerator.init p) ops).1.rule_counter :=
  ⟨runOps_nodup ops _, runOps_chained ops (DVPGenerator.init p)⟩

/-- C7: calling `generate_all_rules()` twice with no fields added in
between yields two batches of equal size; each call appends exactly its own
batch to the stored collection and returns only that batch; and the ids of
the concatenated batches continue the running counter with no id reused. -/
theorem c7_two_calls (g : DVPGenerator) :
    (generateAllRules g).1.length = (generateAllRules (generateAllRules g).2).1.length
    ∧ (generateAllRules g).2.validation_rules
        = g.validation_rules ++ (generateAllRules g).1
    ∧ (generateAllRules (generateAllRules g).2).2.validation_rules
        = (generateAllRules g).2.validation_rules
          ++ (generateAllRules (generateAllRules g).2).1
    ∧ chained g.rule_counter
        ((generateAllRules g).1 ++ (generateAllRules (generateAllRules g).2).1)
        (generateAllRules (generateAllRules g).2).2.rule_counter
    ∧ (((generateAllRules g).1
        ++ (generateAllRules (generateAllRules g).2).1).map (·.rule_id)).Nodup := by
  have hch := chained_append (generateAllRules_chained g)
    (generateAllRules_chained (generateAllRules g).2)
  exact ⟨generateAllRules_len_eq g _ (generateAllRules_state g).1.symm,
    (generateAllRules_state g).2, (generateAllRules_state _).2, hch, chained_nodup hch⟩

/-- C8 (counterexample): `CRFField` construction and `add_crf_fields`
perform no bound validation — a numeric field with `min_value = 100 >
max_value = 1` is accepted into the generator's catalogue, so the claimed
invariant does not hold for every field. -/
theorem c8_counterexample :
    ((addCrfFields (DVPGenerator.init protoC1) [badRangeField]).crf_fields.any
      violatesRange) = true := by
  decide

/-- C8 (amended): no validation is applied on the way into the catalogue
(`add_crf_fields` appends the supplied list as-is), and the invariant
`min_value ≤ max_value` does hold for every numeric field of the standard
catalogue the workflow feeds to the DVP generator. -/
theorem c8_bounds_unchecked_but_standard_catalogue_ok :
    (∀ (g : DVPGenerator) (fs : List CRFField),
      (addCrfFields g fs).crf_fields = g.crf_fields ++ fs)
    ∧ prepareCrfFieldsForDvp.all (fun f => !(violatesRange f)) = true :=
  ⟨fun g fs => rfl, by decide⟩

/-- C9: a run requesting `generate_types = ['crf', 'dvp']` against a
successfully parsed protocol yields a report with `total_tasks = 3` (parse,
CRF, DVP) and no User-Guide or DMP task entry — whatever the document
builders' outcomes. -/
theorem c9_crf_dvp_run (p : ParsedProtocol) (pe ce de ue : String)
    (cok dok uok : Bool) (pp od : String) (clk : Nat) :
    (runAll ⟨some p, pe, cok, ce, dok, de, uok, ue⟩ (some ["crf", "dvp"])
        (initState pp od clk)).report.total_tasks = 3
    ∧ ((runAll ⟨some p, pe, cok, ce, dok, de, uok, ue⟩ (some ["crf", "dvp"])
        (initState pp od clk)).report.tasks.map (·.task_type))
        = ["protocol_parsing", "crf", "dvp"] := by
  cases cok <;> cases dok <;> exact ⟨rfl, rfl⟩

/-- C10: `_update_task_status` appends every supplied skip message to the
report's error list with the `[<task type>]` prefix; consequently a run in
which parsing and all three implemented builders succeed ends with zero
failed tasks, task statuses `[completed, completed, completed, completed,
skipped]`, and the non-empty error list holding exactly the DMP stub's
message. -/
theorem c10_skip_messages_in_error_list :
    (∀ (st : AutoState) (task : GenerationTask) (path : Option String) (m : String),
      (updateTaskStatus st task "skipped" path (some m)).1.report.errors
        = st.report.errors ++ ["[" ++ task.task_type ++ "] " ++ m])
    ∧ (runAll wOk none (initState "protocol.pdf" "out" 0)).report.failed_tasks = 0
    ∧ (runAll wOk none (initState "protocol.pdf" "out" 0)).report.errors
        = ["[dmp] DMP 生成器尚未實現"]
    ∧ ((runAll wOk none (initState "protocol.pdf" "out" 0)).report.tasks.map (·.status))
        = ["completed", "completed", "completed", "completed", "skipped"] := by
  refine ⟨?_, rfl, rfl, rfl⟩
  intro st task path m
  cases path <;> rfl

end ClinicalDoc
